import Mathlib

/-!
Verification development for minimize-ninja (src/minimize_ninja/cli.py).

The file shallowly embeds the image-reference scanner, the quality-preset
lookup, the warning conditions, the per-record stage loops and the size
summaries of `slim_file` (cli.py).  The per-record stage operations
(`convert`, `resize`, `optimize`, `add_slide_reference`) live in
`minimize_ninja/keynote.py`, which is not part of the sources here; those
operations are modelled from the design document (sections 3, 4.2, 4.3, 6)
and each such definition is marked `Modelled from the spec`.
-/

/-- Kind of a structural back-reference held by an image record:
`add_slide_reference` (direct TSD.ImageArchive occurrence) versus
`add_slide_style_reference` (KN.SlideStyleArchive fill occurrence),
cli.py lines 176 and 189. -/
inductive RefKind where
  | slide
  | slideStyle
deriving DecidableEq

/-- Modelled from the spec (section 4.2): a reference annotation records the
fragment identity and the structural role of the occurrence. -/
structure SlideReference where
  fragment : String
  kind : RefKind
deriving DecidableEq

/-- Modelled from the spec (section 3): one embedded image and its
transformation lineage.  `filename_suffix` stands for the Python
`image.filename.suffix`, `payload` is the opaque handle of the owned image
content, `pixel_res` the current resolution and `display_res` the intended
display scale used by the resize stage.  The four size fields are the byte
sizes after each pipeline stage (`size_original`, `size_converted`,
`size_resized`, `size_optimized` in keynote.py). -/
structure ImageRecord where
  filename_suffix : String
  payload : Nat
  pixel_res : Nat
  display_res : Nat
  size_original : Nat
  size_converted : Nat
  size_resized : Nat
  size_optimized : Nat
  references : List SlideReference
deriving DecidableEq

/-- `images_dict` of cli.py: a Python dict from image identifier to record,
embedded as an association list in insertion order (keys unique in any
actual dict built by the index). -/
abbrev ImagesDict := List (Nat × ImageRecord)

/-- Modelled from the spec (section 6): the external codec collaborator.
`decodable` answers whether the payload can be decoded at all,
`convertBytes` gives the byte size after TIFF normalisation,
`convertPngBytes` after a PNG-to-JPEG conversion at a JPEG quality,
`resizeBytes` the byte size produced when scaling from the current to the
target resolution, and `encodeBytes` the byte size after re-encoding at a
JPEG quality. -/
structure Codec where
  decodable : Nat → Bool
  convertBytes : Nat → Nat
  convertPngBytes : Nat → Int → Nat
  resizeBytes : Nat → Nat → Nat → Nat
  encodeBytes : Nat → Int → Nat

/-- Modelled from the spec (section 7): the recoverable per-record stage
failures, `UnsupportedFormatError` and `EncodingError`. -/
inductive StageError where
  | unsupportedFormat
  | encodingFailed
deriving DecidableEq

/-- Errors a whole `slim_file` run can abort with: a propagated per-record
stage failure, or Python's ZeroDivisionError raised by the size summaries. -/
inductive RunError where
  | stageFailure (e : StageError)
  | zeroDivision
deriving DecidableEq

/-- The four keyword settings of `slim_file` that the quality selector can
overwrite (cli.py lines 26-36 and 44-62): `resize_factor`,
`jpeg_compression`, `png_convert` and `export_pdf`. -/
structure SlimSettings where
  resize_factor : Rat
  jpeg_compression : Int
  png_convert : Bool
  export_pdf : Bool
deriving DecidableEq

/-- The defaults of `slim_file`'s signature (cli.py lines 26-36):
`resize_factor=2.0`, `jpeg_compression=85`, `png_convert=False`,
`export_pdf=False`. -/
def defaultSettings : SlimSettings :=
  { resize_factor := 2
    jpeg_compression := 85
    png_convert := false
    export_pdf := false }

/-- The `match quality:` statement of cli.py lines 44-62.  Cases 1-3 set a
fixed tuple of settings; case 0 is `pass` and any other value matches no
case, so the caller-supplied settings are kept. -/
def applyQuality (quality : Int) (s : SlimSettings) : SlimSettings :=
  if quality = 1 then
    { resize_factor := 2, jpeg_compression := 80, png_convert := true, export_pdf := true }
  else if quality = 2 then
    { resize_factor := mkRat 3 2, jpeg_compression := 75, png_convert := true, export_pdf := true }
  else if quality = 3 then
    { resize_factor := 1, jpeg_compression := 70, png_convert := true, export_pdf := true }
  else
    s

/-- The two advisory quality warnings of cli.py lines 64-84. -/
inductive Warning where
  | resizeBelowTwo
  | jpegBelowEighty
deriving DecidableEq

/-- cli.py lines 64-84: warn when the effective `resize_factor` is strictly
below 2.0, then warn when the effective `jpeg_compression` is strictly
below 80, in that order. -/
def qualityWarnings (s : SlimSettings) : List Warning :=
  (if s.resize_factor < 2 then [Warning.resizeBelowTwo] else []) ++
    (if s.jpeg_compression < 80 then [Warning.jpegBelowEighty] else [])

/-- Does the head list start with the pattern list? -/
def leadMatch : List Char → List Char → Bool
  | _, [] => true
  | [], _ :: _ => false
  | h :: hs, p :: ps => (h = p) && leadMatch hs ps

/-- Does the first list contain the second as a contiguous run? -/
def charsContain : List Char → List Char → Bool
  | [], pat => leadMatch [] pat
  | h :: hs, pat => leadMatch (h :: hs) pat || charsContain hs pat

/-- Python's `pat in s` substring test on strings. -/
def strContains (s pat : String) : Bool := charsContain s.data pat.data

/-- cli.py line 96: `"tif" in image.filename.suffix`. -/
def hasTifSuffix (r : ImageRecord) : Bool := strContains r.filename_suffix "tif"

/-- cli.py line 99: `"png" in image.filename.suffix`. -/
def hasPngSuffix (r : ImageRecord) : Bool := strContains r.filename_suffix "png"

/-- Modelled from the spec (section 4.3, normalizeFormat, for
`tiff.convert()` in keynote.py which is absent from the sources): fails
with UnsupportedFormatError when the payload cannot be decoded, otherwise
rewrites the filename extension to the standard lossy format and records
the converted byte size obtained from the codec. -/
def convertTiff (c : Codec) (r : ImageRecord) : Except StageError ImageRecord :=
  if c.decodable r.payload then
    Except.ok { r with
      filename_suffix := ".jpeg"
      size_converted := c.convertBytes r.size_original }
  else
    Except.error StageError.unsupportedFormat

/-- Modelled from the spec (section 4.3, normalizeFormat, for
`png.convert(jpeg_compression=...)` in keynote.py which is absent from the
sources): like `convertTiff` but the codec re-encodes at the given JPEG
quality. -/
def convertPng (c : Codec) (q : Int) (r : ImageRecord) : Except StageError ImageRecord :=
  if c.decodable r.payload then
    Except.ok { r with
      filename_suffix := ".jpeg"
      size_converted := c.convertPngBytes r.size_original q }
  else
    Except.error StageError.unsupportedFormat

/-- Modelled from the spec (section 4.3, resize, for
`image.resize(max_ratio_factor=...)` in keynote.py which is absent from
the sources): the target resolution is the intended display scale times
the factor; when the target is not smaller than the current resolution the
stage is a no-op with `size_resized := size_converted`; a result that
would increase the byte size is skipped as well (section 3).  The target
resolution is the rational `display_res * factor`; since `factor.den` is
positive, `display_res * factor < pixel_res` is the integer comparison
`display_res * factor.num < pixel_res * factor.den`, and the floor of the
target is the floor division of its numerator by its denominator. -/
def resizeRecord (c : Codec) (factor : Rat) (r : ImageRecord) : ImageRecord :=
  let targetNum : Int := Int.ofNat r.display_res * factor.num
  if targetNum < Int.ofNat r.pixel_res * Int.ofNat factor.den then
    let t : Nat := (targetNum.fdiv (Int.ofNat factor.den)).toNat
    let b : Nat := c.resizeBytes r.size_converted r.pixel_res t
    if b ≤ r.size_converted then
      { r with pixel_res := t, size_resized := b }
    else
      { r with size_resized := r.size_converted }
  else
    { r with size_resized := r.size_converted }

/-- Modelled from the spec (section 4.3, optimize, for
`image.optimize(jpeg_compression=...)` in keynote.py which is absent from
the sources): re-encode at the given quality and reject any result whose
byte size is larger than the input. -/
def optimizeRecord (c : Codec) (q : Int) (r : ImageRecord) : ImageRecord :=
  let b : Nat := c.encodeBytes r.size_resized q
  if r.size_resized < b then
    { r with size_optimized := r.size_resized }
  else
    { r with size_optimized := b }

/-- Modelled from the spec (section 3, for `add_slide_reference` in
keynote.py which is absent from the sources): references are append-only
during scanning. -/
def addSlideReference (r : ImageRecord) (frag : String) : ImageRecord :=
  { r with references := r.references ++ [{ fragment := frag, kind := RefKind.slide }] }

/-- Modelled from the spec (section 3, for `add_slide_style_reference` in
keynote.py which is absent from the sources). -/
def addSlideStyleReference (r : ImageRecord) (frag : String) : ImageRecord :=
  { r with references := r.references ++ [{ fragment := frag, kind := RefKind.slideStyle }] }

/-- Value of `object.get("data", {})`, cli.py line 174: the optional
`data` field of a scanned object, carrying an optional `identifier`. -/
structure ImageArchiveData where
  identifier : Option Nat
deriving DecidableEq

/-- Innermost link of the style path, `.get("imagedata", {})` carrying an
optional `identifier` (cli.py lines 185-186). -/
structure FillImageData where
  identifier : Option Nat
deriving DecidableEq

/-- The `image` value inside a fill, `.get("image", {})` carrying an
optional `imagedata` (cli.py lines 184-185). -/
structure FillImage where
  imagedata : Option FillImageData
deriving DecidableEq

/-- The `fill` value, `.get("fill", {})`; Python's `"image" in fill` is
`(fill.image).isSome` here (cli.py lines 180-184). -/
structure Fill where
  image : Option FillImage
deriving DecidableEq

/-- The `slideProperties` value, `.get("slideProperties", {})` carrying an
optional `fill` (cli.py lines 180-183). -/
structure SlideProperties where
  fill : Option Fill
deriving DecidableEq

/-- One object of an archive of a chunk of a metadata YAML fragment
(cli.py lines 172-191).  A `.get(key, {})` on a missing key is an `Option`
that is `none`; `.get("identifier", 0)` is `Option.getD 0`. -/
structure ScanObject where
  pbtype : String
  data : Option ImageArchiveData
  slideProperties : Option SlideProperties
deriving DecidableEq

/-- cli.py line 174: `object.get("data", {}).get("identifier", 0)`. -/
def directIdentifier (o : ScanObject) : Nat :=
  (o.data.bind ImageArchiveData.identifier).getD 0

/-- cli.py lines 180-183: `object.get("slideProperties", {}).get("fill", {})`. -/
def fillOf (o : ScanObject) : Option Fill :=
  o.slideProperties.bind SlideProperties.fill

/-- cli.py line 180: `"image" in object.get("slideProperties", {}).get("fill", {})`. -/
def styleHasImage (o : ScanObject) : Bool :=
  ((fillOf o).bind Fill.image).isSome

/-- cli.py lines 181-187: the nested
`fill → image → imagedata → identifier` lookup with default 0. -/
def styleIdentifier (o : ScanObject) : Nat :=
  ((((fillOf o).bind Fill.image).bind FillImage.imagedata).bind FillImageData.identifier).getD 0

/-- Python's `identifier in images_dict` key-membership test. -/
def containsKey (d : ImagesDict) (k : Nat) : Bool :=
  d.any fun p => decide (p.1 = k)

/-- Python's `images_dict[identifier] = f(images_dict[identifier])` update
of the one record stored under a key (keys of an actual dict are unique). -/
def updateRecord (d : ImagesDict) (k : Nat) (f : ImageRecord → ImageRecord) : ImagesDict :=
  d.map fun p => if p.1 = k then (p.1, f p.2) else p

/-- Lookup of the record stored under a key, for stating properties. -/
def findRecord (d : ImagesDict) (k : Nat) : Option ImageRecord :=
  (d.find? fun p => decide (p.1 = k)).map fun p => p.2

/-- The reference list of the record stored under a key. -/
def referencesAt (d : ImagesDict) (k : Nat) : List SlideReference :=
  ((findRecord d k).map ImageRecord.references).getD []

/-- cli.py lines 172-191: handling of one scanned object.  A
`TSD.ImageArchive` object attaches a slide reference when its resolved
identifier is a key of the dict; a `KN.SlideStyleArchive` object is
considered only when its fill has an `image` entry, and then attaches a
slide-style reference when the nested identifier is a key of the dict. -/
def processObject (frag : String) (d : ImagesDict) (o : ScanObject) : ImagesDict :=
  let d1 :=
    if o.pbtype = "TSD.ImageArchive" then
      if containsKey d (directIdentifier o) then
        updateRecord d (directIdentifier o) fun r => addSlideReference r frag
      else d
    else d
  if o.pbtype = "KN.SlideStyleArchive" then
    if styleHasImage o then
      if containsKey d1 (styleIdentifier o) then
        updateRecord d1 (styleIdentifier o) fun r => addSlideStyleReference r frag
      else d1
    else d1
  else d1

/-- One archive of a chunk: `archive["objects"]` (cli.py line 172). -/
structure IwaArchive where
  objects : List ScanObject
deriving DecidableEq

/-- One chunk of a fragment: `chunk["archives"]` (cli.py line 171). -/
structure IwaChunk where
  archives : List IwaArchive
deriving DecidableEq

/-- One metadata YAML fragment (`TiffyYaml(file)` of cli.py line 164):
its file name and its `yaml["chunks"]` content (cli.py line 170). -/
structure TiffyYaml where
  name : String
  chunks : List IwaChunk
deriving DecidableEq

/-- cli.py lines 169-191: the three nested loops over chunks, archives and
objects of one fragment, in list order. -/
def processFragment (f : TiffyYaml) (d : ImagesDict) : ImagesDict :=
  f.chunks.foldl
    (fun dc ch =>
      ch.archives.foldl
        (fun da ar => ar.objects.foldl (fun db o => processObject f.name db o) da)
        dc)
    d

/-- cli.py lines 169-191: the outer `for yaml_file in all_yaml` loop,
instrumented with the list of fragment names in visit order.  The
fragment sequence is the one produced by `kf.path_index.iterdir()`
(cli.py line 164), supplied here by the caller. -/
def scanFragmentsT (fs : List TiffyYaml) (d : ImagesDict) : ImagesDict × List String :=
  fs.foldl (fun acc f => (processFragment f acc.1, acc.2 ++ [f.name])) (d, [])

/-- The scanning pass as used by the pipeline (no instrumentation). -/
def scanFragments (fs : List TiffyYaml) (d : ImagesDict) : ImagesDict :=
  fs.foldl (fun acc f => processFragment f acc) d

/-- Taken from the spec's words, not from the code (section 4.2:
"scanning must process fragments in a ... reproducible order (e.g.,
lexicographic by fragment name)"): strict lexicographic character order
on strings. -/
def strLt : List Char → List Char → Bool
  | [], [] => false
  | [], _ :: _ => true
  | _ :: _, [] => false
  | a :: as, b :: bs => if a < b then true else if b < a then false else strLt as bs

/-- Taken from the spec's words, not from the code: a name sequence is in
lexicographic order when every adjacent pair is non-decreasing. -/
def lexOrdered : List String → Bool
  | [] => true
  | [_] => true
  | a :: b :: t => (strLt a.data b.data || a == b) && lexOrdered (b :: t)

/-- Sum of one size field over a dict (cli.py lines 196-197, 218-219). -/
def totalOf (d : ImagesDict) (f : ImageRecord → Nat) : Nat :=
  (d.map fun p => f p.2).sum

/-- Result triple of one size summary (spec section 4.4 vocabulary for the
values computed in cli.py lines 196-200 and 218-222).  The reduction
percentage `(1.0 - after / before) * 100.0` is an exact rational here,
kept as the unnormalised fraction `reductionNum / reductionDen` with
`reductionNum = (before - after) * 100` and `reductionDen = before`. -/
structure SizeSummary where
  totalBefore : Nat
  totalAfter : Nat
  reductionNum : Int
  reductionDen : Nat
deriving DecidableEq

/-- The reduction computation of cli.py lines 196-200 and 218-222:
`reduction = (1.0 - after / before) * 100.0`.  Python's division of the
two integer totals raises ZeroDivisionError when the before-total is
zero. -/
def summarizeTotals (tb ta : Nat) : Except RunError SizeSummary :=
  if tb = 0 then
    Except.error RunError.zeroDivision
  else
    Except.ok
      { totalBefore := tb
        totalAfter := ta
        reductionNum := (Int.ofNat tb - Int.ofNat ta) * 100
        reductionDen := tb }

/-- The size summary over a whole dict, cli.py lines 196-200 (converted to
resized) and 218-222 (resized to optimized). -/
def summarizeSizes (d : ImagesDict) (f g : ImageRecord → Nat) : Except RunError SizeSummary :=
  summarizeTotals (totalOf d f) (totalOf d g)

/-- The bare per-record conversion loops of cli.py lines 111-112 and
141-142: each selected record (by key) is passed through the stage in dict
order; a stage exception propagates immediately, exactly as an uncaught
Python exception aborts the `for` loop and the whole run.  Returns the
updated dict and the list of converted records (the `tiffies` or `pngs`
list after conversion). -/
def convertSelected (stage : ImageRecord → Except StageError ImageRecord) (keys : List Nat) :
    ImagesDict → Except StageError (ImagesDict × List ImageRecord)
  | [] => Except.ok ([], [])
  | p :: ps =>
    if keys.contains p.1 then
      match stage p.2 with
      | Except.error e => Except.error e
      | Except.ok r =>
        match convertSelected stage keys ps with
        | Except.error e => Except.error e
        | Except.ok (d2, cs) => Except.ok ((p.1, r) :: d2, r :: cs)
    else
      match convertSelected stage keys ps with
      | Except.error e => Except.error e
      | Except.ok (d2, cs) => Except.ok (p :: d2, cs)

/-- Everything a `slim_file` run produces that the design document talks
about: the final records, the emitted quality warnings, the four size
summaries (TIFF and PNG summaries only when the matching block ran) and
the identifiers visited by the resize and optimize loops. -/
structure RunResult where
  records : ImagesDict
  warnings : List Warning
  tiffSummary : Option SizeSummary
  pngSummary : Option SizeSummary
  resizeSummary : SizeSummary
  optimizeSummary : SizeSummary
  resizedIds : List Nat
  optimizedIds : List Nat
deriving DecidableEq

/-- The `slim_file` pipeline of cli.py lines 26-228 (the repack, file-stat
report and AppleScript export of lines 230-273 touch only external
collaborators and are outside the modelled core): apply the quality
preset, emit the threshold warnings, convert the TIFF records and
summarize them when any exist, convert the PNG records when `png_convert`
is set and summarize them when any were converted, scan the fragments for
references, resize every record, summarize converted→resized, optimize
every record, summarize resized→optimized. -/
def slimFile (c : Codec) (quality : Int) (s0 : SlimSettings)
    (fragments : List TiffyYaml) (images : ImagesDict) :
    Except RunError RunResult :=
  let s := applyQuality quality s0
  let ws := qualityWarnings s
  let tiffKeys := (images.filter fun p => hasTifSuffix p.2).map fun p => p.1
  let pngKeys := (images.filter fun p => hasPngSuffix p.2).map fun p => p.1
  match convertSelected (convertTiff c) tiffKeys images with
  | Except.error e => Except.error (RunError.stageFailure e)
  | Except.ok (d1, tiffConverted) =>
    match (if tiffConverted.isEmpty then Except.ok none
           else (summarizeTotals
               (tiffConverted.map ImageRecord.size_original).sum
               (tiffConverted.map ImageRecord.size_converted).sum).map some :
           Except RunError (Option SizeSummary)) with
    | Except.error e => Except.error e
    | Except.ok tiffSummary =>
      match (if s.png_convert then
               convertSelected (convertPng c s.jpeg_compression) pngKeys d1
             else Except.ok (d1, []) :
             Except StageError (ImagesDict × List ImageRecord)) with
      | Except.error e => Except.error (RunError.stageFailure e)
      | Except.ok (d2, pngConverted) =>
        match (if pngConverted.isEmpty then Except.ok none
               else (summarizeTotals
                   (pngConverted.map ImageRecord.size_original).sum
                   (pngConverted.map ImageRecord.size_converted).sum).map some :
               Except RunError (Option SizeSummary)) with
        | Except.error e => Except.error e
        | Except.ok pngSummary =>
          let d3 := scanFragments fragments d2
          let d4 := d3.map fun p => (p.1, resizeRecord c s.resize_factor p.2)
          match summarizeSizes d4 ImageRecord.size_converted ImageRecord.size_resized with
          | Except.error e => Except.error e
          | Except.ok resizeSummary =>
            let d5 := d4.map fun p => (p.1, optimizeRecord c s.jpeg_compression p.2)
            match summarizeSizes d5 ImageRecord.size_resized ImageRecord.size_optimized with
            | Except.error e => Except.error e
            | Except.ok optimizeSummary =>
              Except.ok
                { records := d5
                  warnings := ws
                  tiffSummary := tiffSummary
                  pngSummary := pngSummary
                  resizeSummary := resizeSummary
                  optimizeSummary := optimizeSummary
                  resizedIds := d3.map fun p => p.1
                  optimizedIds := d4.map fun p => p.1 }

/-- View of an `Except` value as a sum, to derive decidable equality. -/
def exceptToSum {e a : Type} (x : Except e a) : Sum e a :=
  match x with
  | Except.error v => Sum.inl v
  | Except.ok v => Sum.inr v

instance {e a : Type} [DecidableEq e] [DecidableEq a] : DecidableEq (Except e a) := fun x y =>
  decidable_of_iff (exceptToSum x = exceptToSum y) (by cases x <;> cases y <;> simp [exceptToSum])

/-- Projection of an `ImageRecord` onto everything except its reference
list, used to state that scanning only appends references. -/
def recordCore (r : ImageRecord) : String × Nat × Nat × Nat × Nat × Nat × Nat × Nat :=
  (r.filename_suffix, r.payload, r.pixel_res, r.display_res,
   r.size_original, r.size_converted, r.size_resized, r.size_optimized)

/-- Reference-free projection of a whole dict. -/
def coreOf (d : ImagesDict) : List (Nat × (String × Nat × Nat × Nat × Nat × Nat × Nat × Nat)) :=
  d.map fun p => (p.1, recordCore p.2)

/-- The key sequence of a dict, in insertion order. -/
def keysOf (d : ImagesDict) : List Nat :=
  d.map fun p => p.1

/-- A concrete codec instance for the external collaborator: everything
decodes, conversion and re-encoding keep the byte size, any actual
downscale produces 200 bytes. -/
def codecA : Codec :=
  { decodable := fun _ => true
    convertBytes := fun b => b
    convertPngBytes := fun b _ => b
    resizeBytes := fun _ _ _ => 200
    encodeBytes := fun b _ => b }

/-- A concrete JPEG record: 1000 bytes at resolution 400 for an intended
display scale of 100. -/
def recA : ImageRecord :=
  { filename_suffix := ".jpeg"
    payload := 1
    pixel_res := 400
    display_res := 100
    size_original := 1000
    size_converted := 1000
    size_resized := 1000
    size_optimized := 1000
    references := [] }

/-- `recA` after the resize and optimize loops of a default-settings run. -/
def recAT : ImageRecord :=
  { recA with pixel_res := 200, size_resized := 200, size_optimized := 200 }

/-- The full result of `slimFile codecA 0 defaultSettings [] [(1, recA)]`. -/
def resA : RunResult :=
  { records := [(1, recAT)]
    warnings := []
    tiffSummary := none
    pngSummary := none
    resizeSummary :=
      { totalBefore := 1000, totalAfter := 200, reductionNum := 80000, reductionDen := 1000 }
    optimizeSummary :=
      { totalBefore := 200, totalAfter := 200, reductionNum := 0, reductionDen := 200 }
    resizedIds := [1]
    optimizedIds := [1] }

/-- A codec whose decoder rejects payload 1 and accepts payload 2. -/
def codecB : Codec :=
  { decodable := fun p => decide (p = 2)
    convertBytes := fun b => b
    convertPngBytes := fun b _ => b
    resizeBytes := fun _ _ _ => 200
    encodeBytes := fun b _ => b }

/-- A TIFF record whose payload `codecB` cannot decode. -/
def recB1 : ImageRecord :=
  { filename_suffix := ".tiff"
    payload := 1
    pixel_res := 100
    display_res := 100
    size_original := 500
    size_converted := 500
    size_resized := 500
    size_optimized := 500
    references := [] }

/-- A TIFF record whose payload `codecB` decodes fine. -/
def recB2 : ImageRecord :=
  { recB1 with payload := 2 }

/-- `recB2` after a successful conversion under `codecB`. -/
def recB2c : ImageRecord :=
  { recB2 with filename_suffix := ".jpeg" }

/-- The key selection of the conversion loop over `recB1` and `recB2`. -/
def keysB : List Nat := [1, 2]

/-- A one-record dict for the non-zero-total summary instance. -/
def dictW3 : ImagesDict :=
  [(3, { filename_suffix := ".jpeg"
         payload := 0
         pixel_res := 10
         display_res := 10
         size_original := 100
         size_converted := 100
         size_resized := 50
         size_optimized := 50
         references := [] })]

/-- A direct image-archive object carrying identifier 7. -/
def objW6 : ScanObject :=
  { pbtype := "TSD.ImageArchive"
    data := some { identifier := some 7 }
    slideProperties := none }

/-- A dict whose only key is 5, so identifier 7 dangles. -/
def dictW6 : ImagesDict := [(5, recA)]

/-- A style object whose fill is present but has no `image` entry. -/
def objStyleNoImage : ScanObject :=
  { pbtype := "KN.SlideStyleArchive"
    data := none
    slideProperties := some { fill := some { image := none } } }

/-- A direct image-archive object with no `data` entry at all. -/
def objDirectNoData : ScanObject :=
  { pbtype := "TSD.ImageArchive"
    data := none
    slideProperties := none }

/-- A dict that does contain the default identifier 0 as a key. -/
def dictWithKeyZero : ImagesDict := [(0, recA)]

/-- Two fragments whose directory-iteration order is not lexicographic. -/
def fragB : TiffyYaml := { name := "b", chunks := [] }

/-- The lexicographically smaller of the two fragments. -/
def fragA : TiffyYaml := { name := "a", chunks := [] }

/-- C5: the quality selector maps to effective settings as a pure lookup:
selector 1 yields resize factor 2.0, JPEG quality 80 and PNG-conversion
and PDF export enabled; selector 2 yields 1.5 and 75; selector 3 yields
1.0 and 70; selector 0 leaves the caller-supplied settings unchanged; for
selectors 1-3 the result is a constant independent of anything but the
selector. -/
theorem c5_preset_lookup (s : SlimSettings) :
    applyQuality 1 s =
      { resize_factor := 2, jpeg_compression := 80, png_convert := true, export_pdf := true } ∧
    applyQuality 2 s =
      { resize_factor := 3 / 2, jpeg_compression := 75, png_convert := true, export_pdf := true } ∧
    mkRat 3 2 = (3 : Rat) / 2 ∧
    applyQuality 3 s =
      { resize_factor := 1, jpeg_compression := 70, png_convert := true, export_pdf := true } ∧
    applyQuality 0 s = s := by
  refine ⟨?_, ?_, ?_, ?_, ?_⟩ <;> norm_num [applyQuality, Rat.mkRat_eq_div]

/-- C9: a quality selector outside 0-3 matches no case of the `match`
statement, raises nothing and behaves exactly as selector 0: the
caller-supplied settings are left unchanged. -/
theorem c9_out_of_range_quality (q : Int) (s : SlimSettings) (h : q < 0 ∨ 3 < q) :
    applyQuality q s = applyQuality 0 s ∧ applyQuality q s = s := by
  have h1 : ¬q = 1 := by rcases h with h | h <;> omega
  have h2 : ¬q = 2 := by rcases h with h | h <;> omega
  have h3 : ¬q = 3 := by rcases h with h | h <;> omega
  constructor <;> simp [applyQuality, h1, h2, h3]

/-- Witness for C9 at the concrete selectors 4 and -1. -/
theorem c9_witness :
    ((4 : Int) < 0 ∨ (3 : Int) < 4) ∧ applyQuality 4 defaultSettings = defaultSettings ∧
    ((-1 : Int) < 0 ∨ (3 : Int) < -1) ∧ applyQuality (-1) defaultSettings = defaultSettings :=
  ⟨Or.inr (by norm_num),
   (c9_out_of_range_quality 4 defaultSettings (Or.inr (by norm_num))).2,
   Or.inl (by norm_num),
   (c9_out_of_range_quality (-1) defaultSettings (Or.inl (by norm_num))).2⟩

/-- C4: the resizing warning is emitted iff the effective resize factor is
strictly below 2.0 and the compression warning iff the effective JPEG
quality is strictly below 80; at exactly 2.0 and exactly 80 nothing is
emitted; preset 3 emits both warnings exactly once each and a concrete
preset-3 run still completes. -/
theorem c4_warning_thresholds (s : SlimSettings) :
    (Warning.resizeBelowTwo ∈ qualityWarnings s ↔ s.resize_factor < 2) ∧
    (Warning.jpegBelowEighty ∈ qualityWarnings s ↔ s.jpeg_compression < 80) ∧
    qualityWarnings { s with resize_factor := 2, jpeg_compression := 80 } = [] ∧
    (qualityWarnings (applyQuality 3 s)).count Warning.resizeBelowTwo = 1 ∧
    (qualityWarnings (applyQuality 3 s)).count Warning.jpegBelowEighty = 1 ∧
    (slimFile codecA 3 defaultSettings [] [(1, recA)]).toOption.isSome = true := by
  refine ⟨?_, ?_, ?_, ?_, ?_, by decide⟩
  · by_cases h1 : s.resize_factor < 2 <;> by_cases h2 : s.jpeg_compression < 80 <;>
      simp [qualityWarnings, h1, h2]
  · by_cases h1 : s.resize_factor < 2 <;> by_cases h2 : s.jpeg_compression < 80 <;>
      simp [qualityWarnings, h1, h2]
  · norm_num [qualityWarnings]
  · norm_num [applyQuality, qualityWarnings, List.count_cons, List.count_nil]
    decide
  · norm_num [applyQuality, qualityWarnings, List.count_cons, List.count_nil]
    decide

/-- Counterexample for C3: on an empty record set the summary of cli.py
lines 196-200 raises ZeroDivisionError instead of reporting 0%. -/
theorem c3_counterexample :
    summarizeSizes [] ImageRecord.size_converted ImageRecord.size_resized =
      Except.error RunError.zeroDivision := rfl

/-- C3 (amended): the summary raises a division-by-zero error exactly when
the total before-size is zero (in particular on every empty record set),
and otherwise returns the two totals and the reduction percentage. -/
theorem c3_zero_total (d : ImagesDict) (f g : ImageRecord → Nat) :
    (totalOf d f = 0 → summarizeSizes d f g = Except.error RunError.zeroDivision) ∧
    (totalOf d f ≠ 0 →
      summarizeSizes d f g =
        Except.ok
          { totalBefore := totalOf d f
            totalAfter := totalOf d g
            reductionNum := (Int.ofNat (totalOf d f) - Int.ofNat (totalOf d g)) * 100
            reductionDen := totalOf d f }) := by
  constructor <;> intro h <;> simp [summarizeSizes, summarizeTotals, h]

/-- Witness for C3 on a concrete non-degenerate record set. -/
theorem c3_witness :
    totalOf dictW3 ImageRecord.size_converted ≠ 0 ∧
    summarizeSizes dictW3 ImageRecord.size_converted ImageRecord.size_resized =
      Except.ok
        { totalBefore := 100, totalAfter := 50, reductionNum := 5000, reductionDen := 100 } := by
  refine ⟨by decide, ?_⟩
  have h := (c3_zero_total dictW3 ImageRecord.size_converted ImageRecord.size_resized).2 (by decide)
  exact h.trans (by decide)

/-- C6: an object of either recognized shape whose resolved identifier is
not a key of the image index is silently ignored: the dict is returned
unchanged (no reference attached to any record), and the scanner, being a
total function, raises nothing. -/
theorem c6_dangling_ignored (frag : String) (d : ImagesDict) (o : ScanObject)
    (h1 : o.pbtype = "TSD.ImageArchive" → containsKey d (directIdentifier o) = false)
    (h2 : o.pbtype = "KN.SlideStyleArchive" → containsKey d (styleIdentifier o) = false) :
    processObject frag d o = d := by
  by_cases hp1 : o.pbtype = "TSD.ImageArchive"
  · have hne : ¬o.pbtype = "KN.SlideStyleArchive" := by rw [hp1]; decide
    simp [processObject, hp1, hne, h1 hp1]
  · by_cases hp2 : o.pbtype = "KN.SlideStyleArchive"
    · cases hsi : styleHasImage o with
      | true => simp [processObject, hp1, hp2, hsi, h2 hp2]
      | false => simp [processObject, hp1, hp2, hsi]
    · simp [processObject, hp1, hp2]

/-- Witness for C6: identifier 7 dangles in a dict whose only key is 5. -/
theorem c6_witness :
    (objW6.pbtype = "TSD.ImageArchive" → containsKey dictW6 (directIdentifier objW6) = false) ∧
    (objW6.pbtype = "KN.SlideStyleArchive" → containsKey dictW6 (styleIdentifier objW6) = false) ∧
    processObject "f" dictW6 objW6 = dictW6 :=
  ⟨by decide, by decide, c6_dangling_ignored "f" dictW6 objW6 (by decide) (by decide)⟩

/-- C7: a style-reference object whose fill has no `image` entry is
visited, treated as carrying no reference, and leaves the dict unchanged
without error. -/
theorem c7_style_without_image (frag : String) (d : ImagesDict) (o : ScanObject)
    (h1 : o.pbtype = "KN.SlideStyleArchive") (h2 : styleHasImage o = false) :
    processObject frag d o = d := by
  have hp1 : ¬o.pbtype = "TSD.ImageArchive" := by rw [h1]; decide
  simp [processObject, hp1, h1, h2]

/-- Witness for C7 at a concrete style object with an imageless fill. -/
theorem c7_witness :
    objStyleNoImage.pbtype = "KN.SlideStyleArchive" ∧
    styleHasImage objStyleNoImage = false ∧
    processObject "f" dictW6 objStyleNoImage = dictW6 :=
  ⟨rfl, by decide, c7_style_without_image "f" dictW6 objStyleNoImage rfl (by decide)⟩

/-- Counterexample for C10: a style object whose nested path is broken at
the `image` link itself.  The claim predicts that the identifier resolves
to the default 0 and that a reference is attached because 0 is a key of
the index; the code instead skips the object entirely and attaches
nothing. -/
theorem c10_counterexample :
    objStyleNoImage.pbtype = "KN.SlideStyleArchive" ∧
    (fillOf objStyleNoImage).isSome = true ∧
    (fillOf objStyleNoImage).bind Fill.image = none ∧
    containsKey dictWithKeyZero 0 = true ∧
    processObject "f" dictWithKeyZero objStyleNoImage = dictWithKeyZero ∧
    referencesAt (processObject "f" dictWithKeyZero objStyleNoImage) 0 = [] := by decide

/-- C10 (amended): a direct image-archive object with a missing
`data.identifier` resolves to the default 0 and attaches a slide
reference iff 0 is a key; a style object whose `image` link is present
but whose deeper `imagedata`/`identifier` links are missing resolves to 0
and attaches a style reference iff 0 is a key; a style object whose
`slideProperties`, `fill` or `image` link is missing is skipped and
attaches nothing, whatever the index contains. -/
theorem c10_default_identifier (frag : String) (d : ImagesDict) (o : ScanObject) :
    (o.pbtype = "TSD.ImageArchive" → o.data.bind ImageArchiveData.identifier = none →
      directIdentifier o = 0 ∧
      processObject frag d o =
        if containsKey d 0 then updateRecord d 0 (fun r => addSlideReference r frag) else d) ∧
    (o.pbtype = "KN.SlideStyleArchive" → styleHasImage o = true →
      (((fillOf o).bind Fill.image).bind FillImage.imagedata).bind FillImageData.identifier
        = none →
      styleIdentifier o = 0 ∧
      processObject frag d o =
        if containsKey d 0 then updateRecord d 0 (fun r => addSlideStyleReference r frag) else d) ∧
    (o.pbtype = "KN.SlideStyleArchive" → styleHasImage o = false →
      processObject frag d o = d) := by
  refine ⟨?_, ?_, ?_⟩
  · intro hp hid
    have hd : directIdentifier o = 0 := by simp [directIdentifier, hid]
    have hne : ¬o.pbtype = "KN.SlideStyleArchive" := by rw [hp]; decide
    refine ⟨hd, ?_⟩
    simp only [processObject, if_pos hp, if_neg hne, hd]
  · intro hp hsi hid
    have hs0 : styleIdentifier o = 0 := by simp [styleIdentifier, hid]
    have hne : ¬o.pbtype = "TSD.ImageArchive" := by rw [hp]; decide
    refine ⟨hs0, ?_⟩
    simp only [processObject, if_neg hne, if_pos hp, hsi, hs0]
    simp
  · intro hp hsi
    have hne : ¬o.pbtype = "TSD.ImageArchive" := by rw [hp]; decide
    simp [processObject, hne, hp, hsi]

/-- Witness for C10 at a direct object with no `data` entry and a dict
containing key 0. -/
theorem c10_witness :
    directIdentifier objDirectNoData = 0 ∧
    processObject "f" dictWithKeyZero objDirectNoData =
      (if containsKey dictWithKeyZero 0 then
        updateRecord dictWithKeyZero 0 (fun r => addSlideReference r "f")
      else dictWithKeyZero) :=
  (c10_default_identifier "f" dictWithKeyZero objDirectNoData).1 rfl rfl

/-- The visit log of the instrumented scan extends the accumulator by the
fragment names in list order. -/
theorem scanTrace_aux (fs : List TiffyYaml) (acc : ImagesDict × List String) :
    (fs.foldl (fun a f => (processFragment f a.1, a.2 ++ [f.name])) acc).2
      = acc.2 ++ fs.map TiffyYaml.name := by
  induction fs generalizing acc with
  | nil => simp
  | cons f t ih => simp [List.foldl_cons, ih]

/-- The instrumented scan computes the same dict as the plain scan. -/
theorem scanFst_aux (fs : List TiffyYaml) (d : ImagesDict) (t : List String) :
    (fs.foldl (fun a f => (processFragment f a.1, a.2 ++ [f.name])) (d, t)).1
      = scanFragments fs d := by
  induction fs generalizing d t with
  | nil => rfl
  | cons f gs ih =>
    simp only [scanFragments, List.foldl_cons]
    exact ih (processFragment f d) (t ++ [f.name])

/-- Counterexample for C8: the scanner visits the fragments exactly in the
order the directory iterator supplied them (cli.py line 164 builds
`all_yaml` from `iterdir()` with no sorting), so a supplied order
["b", "a"] is visited as ["b", "a"], which is not lexicographic. -/
theorem c8_counterexample :
    (scanFragmentsT [fragB, fragA] []).2 = ["b", "a"] ∧
    lexOrdered ["b", "a"] = false ∧
    lexOrdered ["a", "b"] = true := by decide

/-- C8 (amended): reference scanning processes the fragments exactly in
the caller-supplied (directory-iteration) order, with no sorting; the
visit order is a pure function of the supplied sequence, so two scans of
the same supplied sequence visit fragments, and therefore attach
references, identically. -/
theorem c8_iterator_order (fs : List TiffyYaml) (d : ImagesDict) :
    (scanFragmentsT fs d).1 = scanFragments fs d ∧
    (scanFragmentsT fs d).2 = fs.map TiffyYaml.name :=
  ⟨scanFst_aux fs d [], (scanTrace_aux fs (d, [])).trans (List.nil_append _)⟩

/-- Counterexample for C2: a run over two TIFF records where only the
first record's conversion fails.  The whole run aborts with the stage
error (the loop of cli.py lines 111-112 has no per-record handler), even
though the second record's stage would have succeeded; no failed-record
summary exists. -/
theorem c2_counterexample :
    slimFile codecB 0 defaultSettings [] [(1, recB1), (2, recB2)] =
      Except.error (RunError.stageFailure StageError.unsupportedFormat) ∧
    convertTiff codecB recB2 = Except.ok recB2c := by decide

/-- Unfolding equation of the conversion loop on a non-empty dict. -/
theorem convertSelected_cons (stage : ImageRecord → Except StageError ImageRecord)
    (keys : List Nat) (p : Nat × ImageRecord) (ps : ImagesDict) :
    convertSelected stage keys (p :: ps) =
      if keys.contains p.1 then
        match stage p.2 with
        | Except.error e => Except.error e
        | Except.ok r =>
          match convertSelected stage keys ps with
          | Except.error e => Except.error e
          | Except.ok (d2, cs) => Except.ok ((p.1, r) :: d2, r :: cs)
      else
        match convertSelected stage keys ps with
        | Except.error e => Except.error e
        | Except.ok (d2, cs) => Except.ok (p :: d2, cs) := rfl

/-- C2 (amended): in a per-record conversion loop, the first failing
record's error propagates immediately and becomes the result of the whole
loop: records before the failure are processed, every record after it
(any `d2`) is never examined, and no failed-record list is produced. -/
theorem c2_first_failure_aborts (stage : ImageRecord → Except StageError ImageRecord)
    (keys : List Nat) (d1 d2 : ImagesDict) (k : Nat) (a : ImageRecord) (e : StageError)
    (h1 : ∀ p ∈ d1, keys.contains p.1 = true → ∃ r, stage p.2 = Except.ok r)
    (h2 : keys.contains k = true) (h3 : stage a = Except.error e) :
    convertSelected stage keys (d1 ++ (k, a) :: d2) = Except.error e := by
  induction d1 with
  | nil =>
    rw [List.nil_append, convertSelected_cons, if_pos h2, h3]
  | cons p ps ih =>
    have ih2 := ih fun q hq hk => h1 q (List.mem_cons_of_mem p hq) hk
    cases hc : keys.contains p.1 with
    | true =>
      obtain ⟨r, hr⟩ := h1 p (List.mem_cons_self p ps) hc
      rw [List.cons_append, convertSelected_cons, if_pos hc, hr, ih2]
    | false =>
      have hcf : ¬keys.contains p.1 = true := by rw [hc]; simp
      rw [List.cons_append, convertSelected_cons, if_neg hcf, ih2]

/-- Witness for C2 with the failing record preceded by one record that
converts fine. -/
theorem c2_witness :
    keysB.contains 1 = true ∧
    convertTiff codecB recB1 = Except.error StageError.unsupportedFormat ∧
    convertSelected (convertTiff codecB) keysB ([(2, recB2)] ++ (1, recB1) :: []) =
      Except.error StageError.unsupportedFormat := by
  refine ⟨by decide, by decide, ?_⟩
  refine c2_first_failure_aborts (convertTiff codecB) keysB [(2, recB2)] [] 1 recB1
    StageError.unsupportedFormat ?_ (by decide) (by decide)
  intro p hp hk
  have hp2 : p = (2, recB2) := by simpa using hp
  subst hp2
  exact ⟨recB2c, by decide⟩

/-- Counterexample for C1: a default run (quality 0, resize factor 2.0,
JPEG compression 85, PNG conversion off) over one 1000-byte JPEG record
whose resolution exceeds twice its display scale.  No warning is emitted,
but the resize and optimize loops of cli.py lines 193-194 and 215-216
still run and shrink the record to 200 bytes, so the size fields do not
all equal the original size. -/
theorem c1_counterexample :
    (slimFile codecA 0 defaultSettings [] [(1, recA)]).map
        (fun res => (res.warnings,
          (findRecord res.records 1).map fun r =>
            (r.size_original, r.size_converted, r.size_resized, r.size_optimized))) =
      Except.ok ([], some (1000, 1000, 200, 200)) ∧ (200 : Nat) ≠ 1000 := by decide

/-- The conversion loop with an empty key selection converts nothing. -/
theorem convertSelected_nil_keys (stage : ImageRecord → Except StageError ImageRecord) :
    ∀ d : ImagesDict, convertSelected stage [] d = Except.ok (d, []) := by
  intro d
  induction d with
  | nil => rfl
  | cons p ps ih =>
    have hc : ¬([] : List Nat).contains p.1 = true := by simp
    rw [convertSelected_cons, if_neg hc, ih]

/-- Appending a slide reference leaves the reference-free core unchanged. -/
theorem recordCore_addSlide (r : ImageRecord) (frag : String) :
    recordCore (addSlideReference r frag) = recordCore r := rfl

/-- Appending a slide-style reference leaves the reference-free core
unchanged. -/
theorem recordCore_addStyle (r : ImageRecord) (frag : String) :
    recordCore (addSlideStyleReference r frag) = recordCore r := rfl

/-- A per-key update whose function preserves the record core preserves
the core of the whole dict. -/
theorem coreOf_updateRecord (d : ImagesDict) (k : Nat) (f : ImageRecord → ImageRecord)
    (hf : ∀ r, recordCore (f r) = recordCore r) :
    coreOf (updateRecord d k f) = coreOf d := by
  induction d with
  | nil => rfl
  | cons p ps ih =>
    simp only [updateRecord, coreOf, List.map_cons] at ih ⊢
    refine congrArg₂ List.cons ?_ ih
    by_cases h : p.1 = k
    · simp [h, hf]
    · simp [h]

/-- Scanning one object changes no record core: it only appends
references. -/
theorem coreOf_processObject (frag : String) (d : ImagesDict) (o : ScanObject) :
    coreOf (processObject frag d o) = coreOf d := by
  have u1 : ∀ (d2 : ImagesDict) (k : Nat),
      coreOf (updateRecord d2 k fun r => addSlideReference r frag) = coreOf d2 :=
    fun d2 k => coreOf_updateRecord d2 k _ fun r => rfl
  have u2 : ∀ (d2 : ImagesDict) (k : Nat),
      coreOf (updateRecord d2 k fun r => addSlideStyleReference r frag) = coreOf d2 :=
    fun d2 k => coreOf_updateRecord d2 k _ fun r => rfl
  simp only [processObject]
  split_ifs <;> simp [u1, u2]

/-- A fold whose step preserves dict cores preserves the core. -/
theorem coreOf_foldl {α : Type} (g : ImagesDict → α → ImagesDict)
    (hg : ∀ d a, coreOf (g d a) = coreOf d) (l : List α) :
    ∀ d : ImagesDict, coreOf (l.foldl g d) = coreOf d := by
  induction l with
  | nil => intro d; rfl
  | cons a t ih => intro d; rw [List.foldl_cons, ih, hg]

/-- Scanning one fragment preserves every record core. -/
theorem coreOf_processFragment (f : TiffyYaml) (d : ImagesDict) :
    coreOf (processFragment f d) = coreOf d := by
  simp only [processFragment]
  exact coreOf_foldl _
    (fun dc ch => coreOf_foldl _
      (fun da ar => coreOf_foldl _
        (fun db o => coreOf_processObject f.name db o) ar.objects da) ch.archives dc)
    f.chunks d

/-- The whole scanning pass preserves every record core: sizes,
resolutions, filenames and payloads are untouched. -/
theorem coreOf_scanFragments (fs : List TiffyYaml) (d : ImagesDict) :
    coreOf (scanFragments fs d) = coreOf d :=
  coreOf_foldl _ (fun d2 f => coreOf_processFragment f d2) fs d

/-- Dicts with equal cores have equal key sequences. -/
theorem keysOf_of_coreOf {d1 d2 : ImagesDict} (h : coreOf d1 = coreOf d2) :
    keysOf d1 = keysOf d2 := by
  have h2 := congrArg (List.map Prod.fst) h
  simpa [coreOf, keysOf, List.map_map, Function.comp] using h2

/-- C1 (amended): in a run with quality selector 0 and the default
settings (resize factor 2.0, JPEG compression 85, PNG conversion off), no
warning is emitted and no conversion runs when no record is a TIFF, but
the resize and optimize loops still visit every record once, applying
`resize(max_ratio_factor=2.0)` and `optimize(jpeg_compression=85)`;
reference scanning leaves every record core unchanged, so a record's size
fields all equal `originalBytes` only when both stage applications happen
to be no-ops for it. -/
theorem c1_quality0_still_transforms (c : Codec) (fs : List TiffyYaml) (imgs : ImagesDict)
    (res : RunResult)
    (hrun : slimFile c 0 defaultSettings fs imgs = Except.ok res)
    (ht : ∀ p ∈ imgs, hasTifSuffix p.2 = false) :
    res.warnings = [] ∧
    res.resizedIds = keysOf imgs ∧
    res.optimizedIds = keysOf imgs ∧
    coreOf (scanFragments fs imgs) = coreOf imgs ∧
    res.records = (scanFragments fs imgs).map
      (fun p => (p.1, optimizeRecord c 85 (resizeRecord c 2 p.2))) := by
  have hfil : (imgs.filter fun p => hasTifSuffix p.2) = [] := by
    rw [List.filter_eq_nil_iff]
    intro a ha
    simp [ht a ha]
  simp [slimFile, applyQuality, hfil, convertSelected_nil_keys, defaultSettings] at hrun
  split at hrun
  · exact absurd hrun (by simp)
  · split at hrun
    · exact absurd hrun (by simp)
    · rw [Except.ok.injEq] at hrun
      subst hrun
      refine ⟨?_, ?_, ?_, coreOf_scanFragments fs imgs, ?_⟩
      · norm_num [qualityWarnings]
      · exact keysOf_of_coreOf (coreOf_scanFragments fs imgs)
      · have h := keysOf_of_coreOf (coreOf_scanFragments fs imgs)
        simpa [keysOf, List.map_map, Function.comp] using h
      · simp [List.map_map, Function.comp]

/-- Witness for C1: the concrete default-settings run over `recA`
satisfies the amended statement; in particular its resize loop shrinks
the record even at factor 2.0. -/
theorem c1_witness :
    slimFile codecA 0 defaultSettings [] [(1, recA)] = Except.ok resA ∧
    (∀ p ∈ ([(1, recA)] : ImagesDict), hasTifSuffix p.2 = false) ∧
    (resA.warnings = [] ∧
     resA.resizedIds = keysOf [(1, recA)] ∧
     resA.optimizedIds = keysOf [(1, recA)] ∧
     coreOf (scanFragments [] [(1, recA)]) = coreOf [(1, recA)] ∧
     resA.records = (scanFragments [] [(1, recA)]).map
       (fun p => (p.1, optimizeRecord codecA 85 (resizeRecord codecA 2 p.2)))) :=
  ⟨by decide, by decide,
   c1_quality0_still_transforms codecA [] [(1, recA)] resA (by decide) (by decide)⟩
